import Mathlib

/-!
Shallow embedding of the room-lifecycle core of `src/study_room_bot.py`
(class `StudyBot`): the in-memory lease registries `active_rooms` and
`owner_to_channel`, the session ledger (`sessions` SQLite table), the
release path `_perform_cleanup` with its two triggers
(`cleanup_room_timer` expiry and the `on_voice_state_update` vacancy
listener), the admission path `bookroom`, and the ledger queries.

Python dicts become association lists over `Nat` keys; `datetime`
timestamps become `Nat` seconds; external collaborators (the Discord
client: channel/guild/role resolution, role and channel deletion, the
SQLite commit succeeding or raising) become an explicit environment
record.  Each release/admission run additionally returns the ordered
trace of its externally visible side effects, so that ordering and
exactly-once properties can be stated.
-/

namespace StudyRoomBot

/-- Python `d.get(k)` / `k in d` on a dict modelled as an association list. -/
def dictLookup (k : Nat) : List (Nat × α) → Option α
  | [] => none
  | (k', v) :: rest => if k' = k then some v else dictLookup k rest

/-- Python `d.pop(k, None)`'s removal effect: drop the binding for `k`. -/
def dictErase (k : Nat) (d : List (Nat × α)) : List (Nat × α) :=
  d.filter (fun p => p.1 ≠ k)

/-- Python `d[k] = v`: bind `k` to `v`, replacing any previous binding. -/
def dictInsert (k : Nat) (v : α) (d : List (Nat × α)) : List (Nat × α) :=
  (k, v) :: dictErase k d

/-- One entry of `StudyBot.active_rooms` (the dict value stored by
`bookroom`, minus the `timer_task` handle, which is modelled through the
`cancelTimer` trace event). -/
structure RoomData where
  owner_id : Nat
  partner_id : Nat
  role_id : Nat
  start_time : Nat
  topic : String
  deriving DecidableEq

/-- One row of the `sessions` table as inserted by `_log_session`. -/
structure SessionRecord where
  user_id : Nat
  partner_id : Nat
  start_time : Nat
  end_time : Nat
  duration_seconds : Nat
  topic : String
  deriving DecidableEq

/-- The mutable state of `StudyBot`: the two registries and the ledger. -/
structure BotState where
  active_rooms : List (Nat × RoomData)
  owner_to_channel : List (Nat × Nat)
  sessions : List SessionRecord
  deriving DecidableEq

/-- What `self.get_channel(channel_id)` yields when it resolves: a channel
carrying its (possibly absent) guild, abstracted to the guild id. -/
structure Channel where
  guild : Option Nat
  deriving DecidableEq

/-- External collaborators consulted during release: channel resolution,
role resolution inside a guild, and whether the SQLite insert commits
(`False` models the caught exception branch of `_log_session`). -/
structure Env where
  get_channel : Nat → Option Channel
  guild_role : Nat → Nat → Bool
  ledger_ok : Bool

/-- The externally visible side effects of `_perform_cleanup`, in the
order the code line for each one executes. -/
inductive CleanupEvent
  | computeDuration
  | ledgerAppend
  | removeReverse
  | cancelTimer
  | roleDelete
  | channelDelete
  deriving DecidableEq

/-- `StudyBot._log_session`: on success inserts one row with
`end_time = start_time + duration_seconds`; on a database error the
exception is caught and printed, leaving the table unchanged. -/
def log_session (ledger_ok : Bool) (owner_id partner_id : Nat) (start_time : Nat)
    (duration_seconds : Nat) (topic : String) (sessions : List SessionRecord) :
    List SessionRecord :=
  if ledger_ok then
    sessions ++ [⟨owner_id, partner_id, start_time, start_time + duration_seconds,
      duration_seconds, topic⟩]
  else
    sessions

/-- Result of one `_perform_cleanup` run: the new bot state, the trace of
side effects, and whether the run ended in an unhandled exception
(`self.get_channel(channel_id).guild` on an unresolvable channel). -/
structure CleanupResult where
  state : BotState
  trace : List CleanupEvent
  crashed : Bool
  deriving DecidableEq

/-- `StudyBot._perform_cleanup`, line by line: pop the room from
`active_rooms` (return silently when absent); recompute the duration when
the passed `duration_seconds` is `0`; log the session; pop the owner from
`owner_to_channel`; resolve the channel (crash on `none`, return on a
channel with no guild); cancel the timer task; best-effort delete the
role when it still resolves, then the channel. -/
def perform_cleanup (env : Env) (now : Nat) (channel_id : Nat)
    (duration_seconds : Nat) (topic : String) (s : BotState) : CleanupResult :=
  match dictLookup channel_id s.active_rooms with
  | none => ⟨s, [], false⟩
  | some room_data =>
    let rooms' := dictErase channel_id s.active_rooms
    let dur := if duration_seconds = 0 then now - room_data.start_time
               else duration_seconds
    let sessions' := log_session env.ledger_ok room_data.owner_id
      room_data.partner_id room_data.start_time dur topic s.sessions
    let owners' := dictErase room_data.owner_id s.owner_to_channel
    let s1 : BotState := ⟨rooms', owners', sessions'⟩
    let tr1 : List CleanupEvent := [.computeDuration, .ledgerAppend, .removeReverse]
    match env.get_channel channel_id with
    | none => ⟨s1, tr1, true⟩
    | some ch =>
      match ch.guild with
      | none => ⟨s1, tr1, false⟩
      | some g =>
        let tr2 := tr1 ++ [.cancelTimer]
        let tr3 := if env.guild_role g room_data.role_id
                   then tr2 ++ [.roleDelete] else tr2
        ⟨s1, tr3 ++ [.channelDelete], false⟩

/-- The expiry trigger: the tail of `StudyBot.cleanup_room_timer` after
the sleep elapses — it calls `_perform_cleanup` with the full planned
duration `duration_minutes * 60`, and its `except Exception` handler
swallows any exception the cleanup raises. -/
def cleanup_room_timer_fire (env : Env) (now : Nat) (channel_id : Nat)
    (duration_minutes : Nat) (topic : String) (s : BotState) : CleanupResult :=
  let r := perform_cleanup env now channel_id (duration_minutes * 60) topic s
  ⟨r.state, r.trace, false⟩

/-- The vacancy trigger: the body of `StudyBot.on_voice_state_update`
once the channel has become empty of humans — when the channel is a
tracked active room it calls `_perform_cleanup` with the default
`duration_seconds = 0` and the stored topic; otherwise nothing happens. -/
def on_voice_vacancy (env : Env) (now : Nat) (channel_id : Nat)
    (s : BotState) : CleanupResult :=
  match dictLookup channel_id s.active_rooms with
  | some room_data => perform_cleanup env now channel_id 0 room_data.topic s
  | none => ⟨s, [], false⟩

/-- Number of channel-teardown attempts recorded in a trace. -/
def teardownAttempts (tr : List CleanupEvent) : Nat :=
  tr.countP (fun e => e == CleanupEvent.channelDelete)

/-- The externally visible side effects of `bookroom`, in code order:
the four Discord creation calls of the `try` block, the timer-task
creation, the rollback deletions of the `except` block, and the three
possible replies to the caller. -/
inductive BookEvent
  | createRole
  | addRoleOwner
  | addRolePartner
  | createChannel
  | armTimer
  | rollbackRole
  | rollbackChannel
  | replyAlreadyLeased
  | replyConfirm
  | replyError
  deriving DecidableEq

/-- External collaborators consulted during admission: each of the four
awaited Discord calls of `bookroom`'s `try` block either succeeds
(`some` handle / `true`) or raises, plus the final confirmation send. -/
structure BookEnv where
  create_role : Option Nat
  add_owner_ok : Bool
  add_partner_ok : Bool
  create_channel : Option Nat
  confirm_ok : Bool

/-- `StudyBot.bookroom` after the interaction defer: reject when the
caller already appears in `owner_to_channel`; otherwise create the role,
grant it to both users, create the voice channel, arm the cleanup timer,
record the room in both registries and confirm.  An exception anywhere
in the `try` block jumps to the handler, which best-effort deletes
whichever of `new_role` / `new_voice_channel` were already created and
then reports the error to the caller. -/
def bookroom (env : BookEnv) (now : Nat) (user_id partner_id : Nat)
    (topic : String) (duration_minutes : Nat) (s : BotState) :
    BotState × List BookEvent :=
  match dictLookup user_id s.owner_to_channel with
  | some _ => (s, [.replyAlreadyLeased])
  | none =>
    match env.create_role with
    | none => (s, [.createRole, .replyError])
    | some role_id =>
      if !env.add_owner_ok then
        (s, [.createRole, .addRoleOwner, .rollbackRole, .replyError])
      else if !env.add_partner_ok then
        (s, [.createRole, .addRoleOwner, .addRolePartner, .rollbackRole,
             .replyError])
      else
        match env.create_channel with
        | none =>
          (s, [.createRole, .addRoleOwner, .addRolePartner, .createChannel,
               .rollbackRole, .replyError])
        | some channel_id =>
          let room_data : RoomData :=
            ⟨user_id, partner_id, role_id, now, topic⟩
          let s1 : BotState :=
            ⟨dictInsert channel_id room_data s.active_rooms,
             dictInsert user_id channel_id s.owner_to_channel,
             s.sessions⟩
          if env.confirm_ok then
            (s1, [.createRole, .addRoleOwner, .addRolePartner, .createChannel,
                  .armTimer, .replyConfirm])
          else
            (s1, [.createRole, .addRoleOwner, .addRolePartner, .createChannel,
                  .armTimer, .rollbackRole, .rollbackChannel, .replyError])

/-- The `app_commands.Range[int, 1, 360]` bound declared on
`duration_minutes`: the command layer validates the argument against this
range before the handler body runs. -/
def durationRangeOk (duration_minutes : Nat) : Bool :=
  decide (1 ≤ duration_minutes) && decide (duration_minutes ≤ 360)

/-- The `/bookroom` command as exposed to the caller: the range-validated
argument reaches the handler only when it lies within the declared
bounds; an out-of-range value is rejected up front with no handler
execution and hence no external call. -/
def bookroomCmd (env : BookEnv) (now : Nat) (user_id partner_id : Nat)
    (topic : String) (duration_minutes : Nat) (s : BotState) :
    BotState × List BookEvent :=
  if durationRangeOk duration_minutes then
    bookroom env now user_id partner_id topic duration_minutes s
  else
    (s, [])

/-- The SQL query of `StudyBot.studystats`:
`SELECT SUM(duration_seconds) FROM sessions WHERE user_id = ? OR partner_id = ?`. -/
def queryTotalDuration (user_id : Nat) (sessions : List SessionRecord) : Nat :=
  ((sessions.filter
      (fun r => r.user_id == user_id || r.partner_id == user_id)).map
    SessionRecord.duration_seconds).sum

/-- The spec's wording of the same query, for comparison: the sum of
`durationSeconds` over all records in which the user is owner or
partner. -/
def specTotalDuration (user_id : Nat) (sessions : List SessionRecord) : Nat :=
  (sessions.map (fun r =>
    if r.user_id = user_id ∨ r.partner_id = user_id
    then r.duration_seconds else 0)).sum

theorem dictLookup_erase_self (k : Nat) (d : List (Nat × α)) :
    dictLookup k (dictErase k d) = none := by
  induction d with
  | nil => rfl
  | cons hd tl ih =>
    by_cases h : hd.1 = k
    · simpa [dictErase, h] using ih
    · simpa [dictErase, dictLookup, h] using ih

theorem dictLookup_insert_self (k : Nat) (v : α) (d : List (Nat × α)) :
    dictLookup k (dictInsert k v d) = some v := by
  simp [dictInsert, dictLookup]

/-- The state `_perform_cleanup` leaves behind whenever the room was
tracked: both registries lose their entries and the ledger gains the
logged record, independently of how channel resolution goes. -/
theorem perform_cleanup_state (env : Env) (now channel_id duration_seconds : Nat)
    (topic : String) (s : BotState) (rd : RoomData)
    (h : dictLookup channel_id s.active_rooms = some rd) :
    (perform_cleanup env now channel_id duration_seconds topic s).state =
      ⟨dictErase channel_id s.active_rooms,
       dictErase rd.owner_id s.owner_to_channel,
       log_session env.ledger_ok rd.owner_id rd.partner_id rd.start_time
         (if duration_seconds = 0 then now - rd.start_time else duration_seconds)
         topic s.sessions⟩ := by
  cases hch : env.get_channel channel_id with
  | none => simp [perform_cleanup, h, hch]
  | some ch =>
    cases hg : ch.guild with
    | none => simp [perform_cleanup, h, hch, hg]
    | some g =>
      cases hr : env.guild_role g rd.role_id <;>
        simp [perform_cleanup, h, hch, hg, hr]

/-- The trace `_perform_cleanup` produces when the channel and its guild
resolve: the full side-effect sequence runs, ending in one channel
deletion attempt. -/
theorem perform_cleanup_trace (env : Env) (now channel_id duration_seconds : Nat)
    (topic : String) (s : BotState) (rd : RoomData) (ch : Channel) (g : Nat)
    (h : dictLookup channel_id s.active_rooms = some rd)
    (hch : env.get_channel channel_id = some ch)
    (hg : ch.guild = some g) :
    (perform_cleanup env now channel_id duration_seconds topic s).trace =
      [.computeDuration, .ledgerAppend, .removeReverse, .cancelTimer] ++
        (if env.guild_role g rd.role_id then [CleanupEvent.roleDelete] else []) ++
        [.channelDelete] ∧
    (perform_cleanup env now channel_id duration_seconds topic s).crashed = false := by
  cases hr : env.guild_role g rd.role_id <;>
    simp [perform_cleanup, h, hch, hg, hr]

/-- `_perform_cleanup` on an untracked channel: the pop observes nothing
and the run returns immediately with no side effect. -/
theorem perform_cleanup_untracked (env : Env) (now channel_id duration_seconds : Nat)
    (topic : String) (s : BotState)
    (h : dictLookup channel_id s.active_rooms = none) :
    perform_cleanup env now channel_id duration_seconds topic s = ⟨s, [], false⟩ := by
  simp [perform_cleanup, h]

/-- The expiry trigger on an untracked channel performs no action. -/
theorem cleanup_room_timer_fire_untracked (env : Env)
    (now channel_id duration_minutes : Nat) (topic : String) (s : BotState)
    (h : dictLookup channel_id s.active_rooms = none) :
    cleanup_room_timer_fire env now channel_id duration_minutes topic s =
      ⟨s, [], false⟩ := by
  simp [cleanup_room_timer_fire,
    perform_cleanup_untracked env now channel_id (duration_minutes * 60) topic s h]

/-- The vacancy trigger on an untracked channel performs no action. -/
theorem on_voice_vacancy_untracked (env : Env) (now channel_id : Nat)
    (s : BotState) (h : dictLookup channel_id s.active_rooms = none) :
    on_voice_vacancy env now channel_id s = ⟨s, [], false⟩ := by
  simp [on_voice_vacancy, h]

/-- Concrete fixture: a tracked room on channel 1 owned by user 10. -/
def roomCalc : RoomData := ⟨10, 11, 20, 500, "calc"⟩

/-- Concrete fixture: bot state tracking exactly `roomCalc`, empty ledger. -/
def stateOneRoom : BotState := ⟨[(1, roomCalc)], [(10, 1)], []⟩

/-- Concrete release environment in which channel, guild and role all
resolve and the ledger write commits. -/
def envResolved : Env := ⟨fun _ => some ⟨some 5⟩, fun _ _ => true, true⟩

/-- Concrete release environment in which `get_channel` resolves nothing. -/
def envUnresolvable : Env := ⟨fun _ => none, fun _ _ => true, true⟩

/-- C10: when `get_channel(channel_id)` resolves to nothing,
`_perform_cleanup` crashes on `.guild` after having removed the lease
from the store, appended the SessionRecord and cleared the owner reverse
mapping, and before the timer cancellation and the role/channel teardown,
which are therefore skipped for that release. -/
theorem C10_unresolvable_channel_crash_skips_teardown :
    (perform_cleanup envUnresolvable 800 1 0 "calc" stateOneRoom).crashed = true ∧
    dictLookup 1
      (perform_cleanup envUnresolvable 800 1 0 "calc" stateOneRoom).state.active_rooms
      = none ∧
    (perform_cleanup envUnresolvable 800 1 0 "calc" stateOneRoom).state.sessions =
      [⟨10, 11, 500, 800, 300, "calc"⟩] ∧
    dictLookup 10
      (perform_cleanup envUnresolvable 800 1 0 "calc" stateOneRoom).state.owner_to_channel
      = none ∧
    (perform_cleanup envUnresolvable 800 1 0 "calc" stateOneRoom).trace =
      [.computeDuration, .ledgerAppend, .removeReverse] := by
  decide

/-- C2, counterexample: at a concrete tracked room with everything
resolving, the release side effects do not run in the order the claim
states (cancel timer, compute duration, append record, teardown, remove
reverse mapping). -/
theorem C2_claimed_order_counterexample :
    (perform_cleanup envResolved 800 1 0 "calc" stateOneRoom).trace ≠
      [.cancelTimer, .computeDuration, .ledgerAppend, .roleDelete,
       .channelDelete, .removeReverse] := by
  decide

/-- C2, amended: on a release whose channel, guild and role all resolve,
the side effects run in this exact order: compute the final duration,
append the SessionRecord, remove the owner reverse mapping, cancel the
expiry timer, delete the role, delete the channel (store removal having
already happened as the entry gate). -/
theorem C2_release_order (env : Env) (now channel_id duration_seconds : Nat)
    (topic : String) (s : BotState) (rd : RoomData) (ch : Channel) (g : Nat)
    (h : dictLookup channel_id s.active_rooms = some rd)
    (hch : env.get_channel channel_id = some ch)
    (hg : ch.guild = some g)
    (hrole : env.guild_role g rd.role_id = true) :
    (perform_cleanup env now channel_id duration_seconds topic s).trace =
      [.computeDuration, .ledgerAppend, .removeReverse, .cancelTimer,
       .roleDelete, .channelDelete] := by
  simp [perform_cleanup, h, hch, hg, hrole]

/-- C2, witness for the amended order at a concrete input. -/
theorem C2_release_order_witness :
    (perform_cleanup envResolved 800 1 0 "calc" stateOneRoom).trace =
      [.computeDuration, .ledgerAppend, .removeReverse, .cancelTimer,
       .roleDelete, .channelDelete] :=
  C2_release_order envResolved 800 1 0 "calc" stateOneRoom roomCalc
    ⟨some 5⟩ 5 rfl rfl rfl rfl

/-- C4: the SessionRecord of an expiry-triggered release stores
`duration_minutes * 60` (the planned duration in seconds), and the
SessionRecord of a vacancy-triggered release stores `now - start_time`
(the wall-clock elapsed time). -/
theorem C4_stored_duration (env : Env) (now channel_id duration_minutes : Nat)
    (topic : String) (s : BotState) (rd : RoomData)
    (h : dictLookup channel_id s.active_rooms = some rd)
    (hledger : env.ledger_ok = true)
    (hm : 1 ≤ duration_minutes) :
    (cleanup_room_timer_fire env now channel_id duration_minutes topic s).state.sessions
      = s.sessions ++ [⟨rd.owner_id, rd.partner_id, rd.start_time,
        rd.start_time + duration_minutes * 60, duration_minutes * 60, topic⟩] ∧
    (on_voice_vacancy env now channel_id s).state.sessions
      = s.sessions ++ [⟨rd.owner_id, rd.partner_id, rd.start_time,
        rd.start_time + (now - rd.start_time), now - rd.start_time, rd.topic⟩] := by
  have hne : duration_minutes * 60 ≠ 0 := by omega
  constructor
  · have hst := perform_cleanup_state env now channel_id
      (duration_minutes * 60) topic s rd h
    show (perform_cleanup env now channel_id (duration_minutes * 60) topic s).state.sessions = _
    rw [hst]
    simp [log_session, hledger, hne]
  · have hst := perform_cleanup_state env now channel_id 0 rd.topic s rd h
    simp only [on_voice_vacancy, h]
    rw [hst]
    simp [log_session, hledger]

/-- C4, witness: with the room started at 500 and released at 900, the
expiry record stores the planned 300 seconds ending at 800, while the
vacancy record stores the elapsed 400 seconds ending at 900. -/
theorem C4_stored_duration_witness :
    (cleanup_room_timer_fire envResolved 900 1 5 "calc" stateOneRoom).state.sessions
      = [⟨10, 11, 500, 800, 300, "calc"⟩] ∧
    (on_voice_vacancy envResolved 900 1 stateOneRoom).state.sessions
      = [⟨10, 11, 500, 900, 400, "calc"⟩] :=
  C4_stored_duration envResolved 900 1 5 "calc" stateOneRoom roomCalc
    rfl rfl (by decide)

/-- C1: whichever order the expiry-fire and the vacancy-signal run for
the same tracked channel, the winning trigger appends exactly one
SessionRecord and makes exactly one channel-teardown attempt, and the
losing trigger — whose store removal observes none — performs no further
action (state unchanged, no side effect, no error). -/
theorem C1_release_exactly_once (env : Env)
    (nowE nowV channel_id duration_minutes : Nat) (topic : String)
    (s : BotState) (rd : RoomData) (ch : Channel) (g : Nat)
    (h : dictLookup channel_id s.active_rooms = some rd)
    (hch : env.get_channel channel_id = some ch)
    (hg : ch.guild = some g)
    (hledger : env.ledger_ok = true) :
    ((cleanup_room_timer_fire env nowE channel_id duration_minutes topic s).state.sessions.length
        = s.sessions.length + 1 ∧
     teardownAttempts
        (cleanup_room_timer_fire env nowE channel_id duration_minutes topic s).trace = 1 ∧
     on_voice_vacancy env nowV channel_id
        (cleanup_room_timer_fire env nowE channel_id duration_minutes topic s).state =
       ⟨(cleanup_room_timer_fire env nowE channel_id duration_minutes topic s).state,
        [], false⟩) ∧
    ((on_voice_vacancy env nowV channel_id s).state.sessions.length
        = s.sessions.length + 1 ∧
     teardownAttempts (on_voice_vacancy env nowV channel_id s).trace = 1 ∧
     cleanup_room_timer_fire env nowE channel_id duration_minutes topic
        (on_voice_vacancy env nowV channel_id s).state =
       ⟨(on_voice_vacancy env nowV channel_id s).state, [], false⟩) := by
  constructor
  · have hst := perform_cleanup_state env nowE channel_id
      (duration_minutes * 60) topic s rd h
    have htr := (perform_cleanup_trace env nowE channel_id
      (duration_minutes * 60) topic s rd ch g h hch hg).1
    refine ⟨?_, ?_, ?_⟩
    · show (perform_cleanup env nowE channel_id (duration_minutes * 60) topic s).state.sessions.length = _
      rw [hst]
      simp [log_session, hledger]
    · show teardownAttempts
        (perform_cleanup env nowE channel_id (duration_minutes * 60) topic s).trace = 1
      rw [htr]
      cases hb : env.guild_role g rd.role_id <;> simp [teardownAttempts]
    · apply on_voice_vacancy_untracked
      show dictLookup channel_id
        (perform_cleanup env nowE channel_id (duration_minutes * 60) topic s).state.active_rooms = none
      rw [hst]
      exact dictLookup_erase_self _ _
  · have hvac : on_voice_vacancy env nowV channel_id s =
        perform_cleanup env nowV channel_id 0 rd.topic s := by
      simp [on_voice_vacancy, h]
    have hst := perform_cleanup_state env nowV channel_id 0 rd.topic s rd h
    have htr := (perform_cleanup_trace env nowV channel_id 0 rd.topic s rd ch g
      h hch hg).1
    refine ⟨?_, ?_, ?_⟩
    · rw [hvac, hst]
      simp [log_session, hledger]
    · rw [hvac, htr]
      cases hb : env.guild_role g rd.role_id <;> simp [teardownAttempts]
    · rw [hvac]
      apply cleanup_room_timer_fire_untracked
      rw [hst]
      exact dictLookup_erase_self _ _

/-- C1, witness at a concrete tracked room and resolving environment. -/
theorem C1_release_exactly_once_witness :
    ((cleanup_room_timer_fire envResolved 900 1 5 "calc" stateOneRoom).state.sessions.length
        = 1 ∧
     teardownAttempts
        (cleanup_room_timer_fire envResolved 900 1 5 "calc" stateOneRoom).trace = 1 ∧
     on_voice_vacancy envResolved 950 1
        (cleanup_room_timer_fire envResolved 900 1 5 "calc" stateOneRoom).state =
       ⟨(cleanup_room_timer_fire envResolved 900 1 5 "calc" stateOneRoom).state,
        [], false⟩) ∧
    ((on_voice_vacancy envResolved 950 1 stateOneRoom).state.sessions.length = 1 ∧
     teardownAttempts (on_voice_vacancy envResolved 950 1 stateOneRoom).trace = 1 ∧
     cleanup_room_timer_fire envResolved 900 1 5 "calc"
        (on_voice_vacancy envResolved 950 1 stateOneRoom).state =
       ⟨(on_voice_vacancy envResolved 950 1 stateOneRoom).state, [], false⟩) :=
  C1_release_exactly_once envResolved 900 950 1 5 "calc" stateOneRoom roomCalc
    ⟨some 5⟩ 5 rfl rfl rfl rfl

/-- C8: when the ledger insert fails (the caught exception branch of
`_log_session`), the release still proceeds: no exception propagates,
the ledger is simply left unchanged, the lease is still removed from the
store, the timer is cancelled and exactly one teardown attempt is made. -/
theorem C8_ledger_failure_release_proceeds (env : Env)
    (now channel_id duration_seconds : Nat) (topic : String) (s : BotState)
    (rd : RoomData) (ch : Channel) (g : Nat)
    (h : dictLookup channel_id s.active_rooms = some rd)
    (hch : env.get_channel channel_id = some ch)
    (hg : ch.guild = some g)
    (hledger : env.ledger_ok = false) :
    (perform_cleanup env now channel_id duration_seconds topic s).crashed = false ∧
    (perform_cleanup env now channel_id duration_seconds topic s).state.sessions
      = s.sessions ∧
    dictLookup channel_id
      (perform_cleanup env now channel_id duration_seconds topic s).state.active_rooms
      = none ∧
    CleanupEvent.cancelTimer ∈
      (perform_cleanup env now channel_id duration_seconds topic s).trace ∧
    teardownAttempts
      (perform_cleanup env now channel_id duration_seconds topic s).trace = 1 := by
  obtain ⟨htr, hcr⟩ := perform_cleanup_trace env now channel_id duration_seconds
    topic s rd ch g h hch hg
  have hst := perform_cleanup_state env now channel_id duration_seconds topic s rd h
  refine ⟨hcr, ?_, ?_, ?_, ?_⟩
  · rw [hst]
    simp [log_session, hledger]
  · rw [hst]
    exact dictLookup_erase_self _ _
  · rw [htr]
    cases hb : env.guild_role g rd.role_id <;> simp
  · rw [htr]
    cases hb : env.guild_role g rd.role_id <;> simp [teardownAttempts]

/-- C8, witness: release of the concrete room under a failing ledger. -/
theorem C8_ledger_failure_release_proceeds_witness :
    (perform_cleanup ⟨fun _ => some ⟨some 5⟩, fun _ _ => true, false⟩
        900 1 0 "calc" stateOneRoom).crashed = false ∧
    (perform_cleanup ⟨fun _ => some ⟨some 5⟩, fun _ _ => true, false⟩
        900 1 0 "calc" stateOneRoom).state.sessions = [] ∧
    dictLookup 1 (perform_cleanup ⟨fun _ => some ⟨some 5⟩, fun _ _ => true, false⟩
        900 1 0 "calc" stateOneRoom).state.active_rooms = none ∧
    CleanupEvent.cancelTimer ∈
      (perform_cleanup ⟨fun _ => some ⟨some 5⟩, fun _ _ => true, false⟩
        900 1 0 "calc" stateOneRoom).trace ∧
    teardownAttempts (perform_cleanup ⟨fun _ => some ⟨some 5⟩, fun _ _ => true, false⟩
        900 1 0 "calc" stateOneRoom).trace = 1 :=
  C8_ledger_failure_release_proceeds ⟨fun _ => some ⟨some 5⟩, fun _ _ => true, false⟩
    900 1 0 "calc" stateOneRoom roomCalc ⟨some 5⟩ 5 rfl rfl rfl rfl

/-- C9: every row `_log_session` writes has
`end_time = start_time + duration_seconds` — derived from the duration,
not observed at write time — and consequently the row written by an
expiry-triggered release records the planned end of the session,
independent of the wall-clock time at which the release actually runs. -/
theorem C9_end_time_derived (env : Env)
    (now1 now2 channel_id duration_minutes : Nat) (topic t : String)
    (s : BotState) (rd : RoomData) (o p st d : Nat)
    (sess : List SessionRecord)
    (h : dictLookup channel_id s.active_rooms = some rd)
    (hledger : env.ledger_ok = true)
    (hm : 1 ≤ duration_minutes) :
    log_session true o p st d t sess = sess ++ [⟨o, p, st, st + d, d, t⟩] ∧
    (cleanup_room_timer_fire env now1 channel_id duration_minutes topic s).state.sessions
      = s.sessions ++ [⟨rd.owner_id, rd.partner_id, rd.start_time,
        rd.start_time + duration_minutes * 60, duration_minutes * 60, topic⟩] ∧
    (cleanup_room_timer_fire env now1 channel_id duration_minutes topic s).state.sessions
      = (cleanup_room_timer_fire env now2 channel_id duration_minutes topic s).state.sessions := by
  have hne : duration_minutes * 60 ≠ 0 := by omega
  have key : ∀ n : Nat,
      (cleanup_room_timer_fire env n channel_id duration_minutes topic s).state.sessions
        = s.sessions ++ [⟨rd.owner_id, rd.partner_id, rd.start_time,
          rd.start_time + duration_minutes * 60, duration_minutes * 60, topic⟩] := by
    intro n
    have hst := perform_cleanup_state env n channel_id
      (duration_minutes * 60) topic s rd h
    show (perform_cleanup env n channel_id (duration_minutes * 60) topic s).state.sessions = _
    rw [hst]
    simp [log_session, hledger, hne]
  refine ⟨by simp [log_session], key now1, ?_⟩
  rw [key now1, key now2]

/-- C9, witness: the expiry record of the concrete room ends at the
planned 800 whether the release runs at 900 or at 2000. -/
theorem C9_end_time_derived_witness :
    log_session true 10 11 500 300 "calc" [] = [⟨10, 11, 500, 800, 300, "calc"⟩] ∧
    (cleanup_room_timer_fire envResolved 900 1 5 "calc" stateOneRoom).state.sessions
      = [⟨10, 11, 500, 800, 300, "calc"⟩] ∧
    (cleanup_room_timer_fire envResolved 900 1 5 "calc" stateOneRoom).state.sessions
      = (cleanup_room_timer_fire envResolved 2000 1 5 "calc" stateOneRoom).state.sessions :=
  C9_end_time_derived envResolved 900 2000 1 5 "calc" "calc" stateOneRoom roomCalc
    10 11 500 300 [] rfl rfl (by decide)

/-- C3: `bookroom` is rejected with the already-leased reply — leaving
the state untouched and making no external call — exactly when the
caller already appears in the owner registry; and after a release of the
owner's room (under any release environment, at any release outcome), a
subsequent `bookroom` by the same owner succeeds. -/
theorem C3_already_leased_gate (env env2 : BookEnv) (env1 : Env)
    (now now1 now2 user_id partner_id p2 : Nat) (topic topic2 : String)
    (m m2 cid dur role2 chan2 : Nat) (t : String)
    (s s2 : BotState) (rd : RoomData)
    (hlease : dictLookup cid s2.active_rooms = some rd)
    (h2r : env2.create_role = some role2)
    (h2o : env2.add_owner_ok = true)
    (h2p : env2.add_partner_ok = true)
    (h2c : env2.create_channel = some chan2)
    (h2ok : env2.confirm_ok = true) :
    (bookroom env now user_id partner_id topic m s = (s, [.replyAlreadyLeased])
      ↔ (dictLookup user_id s.owner_to_channel).isSome = true) ∧
    (bookroom env2 now2 rd.owner_id p2 topic2 m2
        (perform_cleanup env1 now1 cid dur t s2).state).2 =
      [.createRole, .addRoleOwner, .addRolePartner, .createChannel,
       .armTimer, .replyConfirm] := by
  constructor
  · cases hl : dictLookup user_id s.owner_to_channel with
    | some c => simp [bookroom, hl]
    | none =>
      simp only [Option.isSome_none, Bool.false_eq_true, iff_false]
      rcases env with ⟨cr, ao, ap, cc, co⟩
      cases cr <;> cases ao <;> cases ap <;> cases cc <;> cases co <;>
        simp [bookroom, hl]
  · have hst := perform_cleanup_state env1 now1 cid dur t s2 rd hlease
    rw [hst]
    simp [bookroom, dictLookup_erase_self, h2r, h2o, h2p, h2c, h2ok]

/-- C3, witness: user 10 is rejected while owning the concrete room, and
admitted again right after that room's release. -/
theorem C3_already_leased_gate_witness :
    (bookroom ⟨some 40, true, true, some 41, true⟩ 900 10 11 "calc" 5 stateOneRoom
        = (stateOneRoom, [.replyAlreadyLeased])
      ↔ (dictLookup 10 stateOneRoom.owner_to_channel).isSome = true) ∧
    (bookroom ⟨some 40, true, true, some 41, true⟩ 950 10 12 "logic" 7
        (perform_cleanup envResolved 900 1 0 "calc" stateOneRoom).state).2 =
      [.createRole, .addRoleOwner, .addRolePartner, .createChannel,
       .armTimer, .replyConfirm] :=
  C3_already_leased_gate ⟨some 40, true, true, some 41, true⟩
    ⟨some 40, true, true, some 41, true⟩ envResolved
    900 900 950 10 11 12 "calc" "logic" 5 7 1 0 40 41 "calc"
    stateOneRoom stateOneRoom roomCalc rfl rfl rfl rfl rfl rfl

/-- C5: when admission fails during external creation (role creation,
either role grant, or channel creation raising), the handler leaves the
tracked state exactly as it was, reports the error to the caller as its
last action, attempts a rollback deletion of the role precisely when the
role had already been created, and never needs a channel rollback since
no failure point lies beyond a successful channel creation. -/
theorem C5_rollback_on_provision_failure (env : BookEnv)
    (now user_id partner_id : Nat) (topic : String) (m : Nat) (s : BotState)
    (hno : dictLookup user_id s.owner_to_channel = none)
    (hfail : env.create_role = none ∨ env.add_owner_ok = false ∨
      env.add_partner_ok = false ∨ env.create_channel = none) :
    (bookroom env now user_id partner_id topic m s).1 = s ∧
    (bookroom env now user_id partner_id topic m s).2.getLast? =
      some BookEvent.replyError ∧
    (BookEvent.rollbackRole ∈ (bookroom env now user_id partner_id topic m s).2
      ↔ env.create_role.isSome = true) ∧
    BookEvent.rollbackChannel ∉ (bookroom env now user_id partner_id topic m s).2 := by
  rcases hfail with hf | hf | hf | hf
  · simp [bookroom, hno, hf]
  · cases hcr : env.create_role <;> simp [bookroom, hno, hf, hcr]
  · cases hcr : env.create_role <;> cases hao : env.add_owner_ok <;>
      simp [bookroom, hno, hf, hcr, hao]
  · cases hcr : env.create_role <;> cases hao : env.add_owner_ok <;>
      cases hap : env.add_partner_ok <;> simp [bookroom, hno, hf, hcr, hao, hap]

/-- C5, witness: the partner role-grant fails after the role was created;
the role is rolled back and the state is unchanged. -/
theorem C5_rollback_on_provision_failure_witness :
    (bookroom ⟨some 40, true, false, some 41, true⟩ 900 99 11 "calc" 5 stateOneRoom).1
      = stateOneRoom ∧
    (bookroom ⟨some 40, true, false, some 41, true⟩ 900 99 11 "calc" 5 stateOneRoom).2.getLast?
      = some BookEvent.replyError ∧
    (BookEvent.rollbackRole ∈
        (bookroom ⟨some 40, true, false, some 41, true⟩ 900 99 11 "calc" 5 stateOneRoom).2
      ↔ (Option.some 40).isSome = true) ∧
    BookEvent.rollbackChannel ∉
      (bookroom ⟨some 40, true, false, some 41, true⟩ 900 99 11 "calc" 5 stateOneRoom).2 :=
  C5_rollback_on_provision_failure ⟨some 40, true, false, some 41, true⟩
    900 99 11 "calc" 5 stateOneRoom rfl (Or.inr (Or.inr (Or.inl rfl)))

/-- C6: a requested duration of 360 minutes passes the declared
`Range[int, 1, 360]` validation and the booking succeeds, while 361 is
rejected by the range check up front: the handler never runs, so no
external call is made and the state is unchanged. -/
theorem C6_duration_range (env : BookEnv)
    (now user_id partner_id role2 chan2 : Nat) (topic : String) (s : BotState)
    (hno : dictLookup user_id s.owner_to_channel = none)
    (h2r : env.create_role = some role2)
    (h2o : env.add_owner_ok = true)
    (h2p : env.add_partner_ok = true)
    (h2c : env.create_channel = some chan2)
    (h2ok : env.confirm_ok = true) :
    durationRangeOk 360 = true ∧
    (bookroomCmd env now user_id partner_id topic 360 s).2 =
      [.createRole, .addRoleOwner, .addRolePartner, .createChannel,
       .armTimer, .replyConfirm] ∧
    durationRangeOk 361 = false ∧
    bookroomCmd env now user_id partner_id topic 361 s = (s, []) := by
  refine ⟨rfl, ?_, rfl, ?_⟩
  · simp [bookroomCmd, durationRangeOk, bookroom, hno, h2r, h2o, h2p, h2c, h2ok]
  · simp [bookroomCmd, durationRangeOk]

/-- C6, witness at a concrete fresh owner and succeeding environment. -/
theorem C6_duration_range_witness :
    durationRangeOk 360 = true ∧
    (bookroomCmd ⟨some 40, true, true, some 41, true⟩ 900 99 11 "calc" 360 stateOneRoom).2
      = [.createRole, .addRoleOwner, .addRolePartner, .createChannel,
         .armTimer, .replyConfirm] ∧
    durationRangeOk 361 = false ∧
    bookroomCmd ⟨some 40, true, true, some 41, true⟩ 900 99 11 "calc" 361 stateOneRoom
      = (stateOneRoom, []) :=
  C6_duration_range ⟨some 40, true, true, some 41, true⟩ 900 99 11 40 41 "calc"
    stateOneRoom rfl rfl rfl rfl rfl rfl

/-- C7: the `studystats` query returns the sum of `duration_seconds`
over all ledger rows in which the user appears as owner or as partner;
in particular a user who owned one 600-second session and partnered in
one 300-second session totals 900. -/
theorem C7_total_duration (user_id : Nat) (sessions : List SessionRecord) :
    queryTotalDuration user_id sessions = specTotalDuration user_id sessions ∧
    queryTotalDuration 7 [⟨7, 8, 0, 600, 600, "algebra"⟩,
      ⟨9, 7, 1000, 1300, 300, "logic"⟩] = 900 := by
  constructor
  · induction sessions with
    | nil => rfl
    | cons hd tl ih =>
      by_cases h1 : hd.user_id = user_id <;> by_cases h2 : hd.partner_id = user_id <;>
        simp [queryTotalDuration, specTotalDuration, List.filter_cons, h1, h2] at ih ⊢ <;>
        omega
  · decide

end StudyRoomBot
